import Mathlib

/-!
Shallow embedding of `torch/distributed/elastic_launch.py` (the launcher glue
of the elastic rendezvous + worker-group lifecycle coordinator), together
with spec-level models of the components the launcher hands its resolved
configuration to (RankAssigner, RestartController).

Python strings are Lean `String`s, Python ints are Lean `Int`s, raised
exceptions are the `PyError` error component of `Except`, and the ambient
process state consulted by the launcher (`os.cpu_count()`,
`torch.cuda.*`, `os.environ`, `sys.executable`) is an explicit `SysEnv`
record threaded through the definitions.
-/

namespace ElasticLaunch

/-- The kinds of exception the launcher raises. -/
inductive PyError where
  | valueError (msg : String)
  | runtimeError (msg : String)
  | assertionError
deriving DecidableEq, Repr

/-- A Python dict value appearing in `rdzv_configs`: either the integer
`args.node_rank` stored under `"rank"` for the static backend, or a string
parsed from `--rdzv_conf`. -/
inductive PyVal where
  | int (n : Int)
  | str (s : String)
deriving DecidableEq, Repr

/-- Python's `str.split(sep)` for a one-character separator, on the
character list: splitting the empty list yields `[[]]`, exactly as
`"".split(":") == [""]` in Python. -/
def splitChar (sep : Char) : List Char → List (List Char)
  | [] => [[]]
  | c :: cs =>
    match splitChar sep cs with
    | [] => if c = sep then [[], []] else [[c]]
    | h :: t => if c = sep then [] :: h :: t else (c :: h) :: t

/-- Python's `s.split(sep)` for a one-character separator. -/
def pySplit (s : String) (sep : Char) : List String :=
  (splitChar sep s.data).map String.mk

/-- Numeric value of a list of decimal digit characters. -/
def digitsVal (l : List Char) : Nat :=
  l.foldl (fun acc c => acc * 10 + (c.toNat - 48)) 0

/-- Strip leading and trailing whitespace from a character list. -/
def trimChars (l : List Char) : List Char :=
  ((l.dropWhile Char.isWhitespace).reverse.dropWhile Char.isWhitespace).reverse

/-- Python's `int(s)` on a whitespace-stripped character list: an optional
sign followed by a nonempty run of decimal digits; everything else raises
`ValueError`, modelled as `none`. -/
def pyIntChars : List Char → Option Int
  | [] => none
  | '-' :: rest =>
    if rest ≠ [] ∧ rest.all Char.isDigit then some (-(digitsVal rest : Int)) else none
  | '+' :: rest =>
    if rest ≠ [] ∧ rest.all Char.isDigit then some (digitsVal rest : Int) else none
  | l =>
    if l.all Char.isDigit then some (digitsVal l : Int) else none

/-- Python's `int(s)` on a string (leading/trailing whitespace allowed). -/
def pyInt (s : String) : Option Int :=
  pyIntChars (trimChars s.data)

/-- `parse_min_max_nnodes` from `elastic_launch.py`: split `nnodes` on
`":"`; one field means `min = max = int(field)`, two fields mean
`(int(first), int(second))`, anything else raises `RuntimeError`.
A field that is not an integer raises `ValueError` (from `int`). -/
def parse_min_max_nnodes (nnodes : String) : Except PyError (Int × Int) :=
  match pySplit nnodes ':' with
  | [a] =>
    match pyInt a with
    | some n => .ok (n, n)
    | none => .error (.valueError "invalid literal for int")
  | [a, b] =>
    match pyInt a, pyInt b with
    | some m, some n => .ok (m, n)
    | _, _ => .error (.valueError "invalid literal for int")
  | _ => .error (.runtimeError "nnodes is not in MIN:MAX format")

/-- The ambient process state read by the launcher: `os.cpu_count()`,
`torch.cuda.is_available()`, `torch.cuda.device_count()`, whether
`OMP_NUM_THREADS` is present in `os.environ`, `sys.executable`, and the
local-rank substitution token `macros.local_rank`. -/
structure SysEnv where
  cpu_count : Nat
  cuda_available : Bool
  cuda_device_count : Nat
  omp_num_threads_set : Bool
  executable : String
  local_rank_token : String
deriving DecidableEq, Repr

/-- `determine_local_world_size` from `elastic_launch.py`: try
`int(nproc_per_node)` first; on `ValueError` dispatch on the strings
`"cpu"`, `"gpu"`, `"auto"`, raising `ValueError` for anything else and
when `"gpu"` is requested without CUDA. -/
def determine_local_world_size (env : SysEnv) (nproc_per_node : String) :
    Except PyError Int :=
  match pyInt nproc_per_node with
  | some n => .ok n
  | none =>
    if nproc_per_node = "cpu" then .ok (env.cpu_count : Int)
    else if nproc_per_node = "gpu" then
      if env.cuda_available then .ok (env.cuda_device_count : Int)
      else .error (.valueError "Cuda is not available.")
    else if nproc_per_node = "auto" then
      if env.cuda_available then .ok (env.cuda_device_count : Int)
      else .ok (env.cpu_count : Int)
    else .error (.valueError "Unsupported nproc_per_node value")

/-- The parsed command-line arguments consumed by `config_from_args` and
`run` (the fields of the `argparse` namespace that those functions read).
`monitor_interval` is a Python float that is only ever copied, modelled as
`Rat`; `redirects` and `tee` are kept as the raw strings handed to the
external `Std.from_str`. -/
structure Args where
  nnodes : String
  nproc_per_node : String
  rdzv_backend : String
  rdzv_endpoint : String
  rdzv_id : String
  rdzv_conf : String
  standalone : Bool
  max_restarts : Int
  monitor_interval : Rat
  start_method : String
  role : String
  module : Bool
  no_python : Bool
  use_env : Bool
  redirects : String
  tee : String
  node_rank : Int
  master_addr : String
  master_port : Int
  training_script : String
  training_script_args : List String
deriving DecidableEq, Repr

/-- Python dict assignment `d[k] = v` on an association list: replace the
value at an existing key, otherwise append the new binding. -/
def insertKV (l : List (String × PyVal)) (k : String) (v : PyVal) :
    List (String × PyVal) :=
  if l.any (fun p => p.1 = k) then
    l.map (fun p => if p.1 = k then (k, v) else p)
  else l ++ [(k, v)]

/-- Modelled from the spec: `_parse_rendezvous_config` lives in
`torch.distributed.elastic.rendezvous.utils`, outside the provided source.
The launcher's own help text fixes its input format,
`conf1=v1,conf2=v2,...`; the model splits the string on commas into
`key=value` items whose values are stored as strings, raising `ValueError`
on a malformed item, and an empty string yields the empty dict. -/
def parse_rendezvous_config_items :
    List String → List (String × PyVal) → Except PyError (List (String × PyVal))
  | [], acc => .ok acc
  | item :: rest, acc =>
    match pySplit item '=' with
    | [k, v] =>
      if k = "" then .error (.valueError "rendezvous config key is empty")
      else parse_rendezvous_config_items rest (insertKV acc k (.str v))
    | _ => .error (.valueError "rendezvous config item is malformed")

/-- Modelled from the spec: top-level entry of the `_parse_rendezvous_config`
model, see `parse_rendezvous_config_items`. -/
def parse_rendezvous_config (conf : String) :
    Except PyError (List (String × PyVal)) :=
  if conf = "" then .ok [] else parse_rendezvous_config_items (pySplit conf ',') []

/-- `get_rdzv_endpoint` from `elastic_launch.py`: the static backend uses
`master_addr:master_port`, every other backend uses `args.rdzv_endpoint`. -/
def get_rdzv_endpoint (args : Args) : String :=
  if args.rdzv_backend = "static" then
    args.master_addr ++ ":" ++ toString args.master_port
  else args.rdzv_endpoint

/-- The `LaunchConfig` record constructed by `config_from_args` (the fields
set at its construction site; `redirects`/`tee` hold the raw strings that
the external `Std.from_str` receives). -/
structure LaunchConfig where
  min_nodes : Int
  max_nodes : Int
  nproc_per_node : Int
  run_id : String
  role : String
  rdzv_endpoint : String
  rdzv_backend : String
  rdzv_configs : List (String × PyVal)
  max_restarts : Int
  monitor_interval : Rat
  start_method : String
  redirects : String
  tee : String
deriving DecidableEq, Repr

/-- The `LaunchConfig(...)` constructor call inside `config_from_args`. -/
def makeLaunchConfig (args : Args) (min_nodes max_nodes : Int)
    (nproc : Int) (configs : List (String × PyVal)) : LaunchConfig :=
  { min_nodes := min_nodes
    max_nodes := max_nodes
    nproc_per_node := nproc
    run_id := args.rdzv_id
    role := args.role
    rdzv_endpoint := get_rdzv_endpoint args
    rdzv_backend := args.rdzv_backend
    rdzv_configs := configs
    max_restarts := args.max_restarts
    monitor_interval := args.monitor_interval
    start_method := args.start_method
    redirects := args.redirects
    tee := args.tee }

/-- The command-line construction tail of `config_from_args`: interpreter
selection (`sys.executable -u`, plus `-m` for module mode), the two
`ValueError`s guarding `--no_python`, the training script, the legacy
`--local_rank={macros.local_rank}` argument appended when `use_env` is
unset, and finally the training script arguments. -/
def build_cmd (env : SysEnv) (args : Args) : Except PyError (List String) :=
  if args.no_python = false then
    .ok (([env.executable, "-u"] ++ (if args.module then ["-m"] else []))
      ++ [args.training_script]
      ++ (if args.use_env then [] else ["--local_rank=" ++ env.local_rank_token])
      ++ args.training_script_args)
  else if args.use_env = false then
    .error (.valueError "When using the no_python flag, you must also set the use_env flag.")
  else if args.module then
    .error (.valueError "Do not use both the no_python flag and the module flag at the same time.")
  else
    .ok ([args.training_script]
      ++ (if args.use_env then [] else ["--local_rank=" ++ env.local_rank_token])
      ++ args.training_script_args)

instance {ε α : Type} [DecidableEq ε] [DecidableEq α] : DecidableEq (Except ε α)
  | Except.ok a, Except.ok b =>
    if h : a = b then .isTrue (congrArg Except.ok h)
    else .isFalse (fun he => h (Except.ok.inj he))
  | Except.ok _, Except.error _ => .isFalse (fun he => Except.noConfusion he)
  | Except.error _, Except.ok _ => .isFalse (fun he => Except.noConfusion he)
  | Except.error e, Except.error f =>
    if h : e = f then .isTrue (congrArg Except.error h)
    else .isFalse (fun he => h (Except.error.inj he))

/-- The value (and side effect on `os.environ`) produced by one call of
`config_from_args`: the returned `(config, cmd)` pair or the raised
exception, together with the value written to `OMP_NUM_THREADS` when the
function writes one. -/
structure ConfigOutcome where
  result : Except PyError (LaunchConfig × List String)
  omp_set : Option String
deriving DecidableEq, Repr

/-- `config_from_args` from `elastic_launch.py`: parse the node bounds,
assert `0 < min_nodes ≤ max_nodes` and `max_restarts ≥ 0`, resolve the
local world size, default `OMP_NUM_THREADS` to `"1"` when it is unset and
more than one worker runs per node, parse the rendezvous config (adding
`rank = node_rank` for the static backend), build the `LaunchConfig` and
the worker command line. -/
def config_from_args (env : SysEnv) (args : Args) : ConfigOutcome :=
  match parse_min_max_nnodes args.nnodes with
  | .error e => ⟨.error e, none⟩
  | .ok (min_nodes, max_nodes) =>
    if 0 < min_nodes ∧ min_nodes ≤ max_nodes then
      if 0 ≤ args.max_restarts then
        match determine_local_world_size env args.nproc_per_node with
        | .error e => ⟨.error e, none⟩
        | .ok nproc =>
          let omp : Option String :=
            if env.omp_num_threads_set = false ∧ 1 < nproc then some "1" else none
          match parse_rendezvous_config args.rdzv_conf with
          | .error e => ⟨.error e, omp⟩
          | .ok conf0 =>
            let configs :=
              if args.rdzv_backend = "static" then
                insertKV conf0 "rank" (.int args.node_rank)
              else conf0
            match build_cmd env args with
            | .error e => ⟨.error e, omp⟩
            | .ok cmd =>
              ⟨.ok (makeLaunchConfig args min_nodes max_nodes nproc configs, cmd), omp⟩
      else ⟨.error .assertionError, none⟩
    else ⟨.error .assertionError, none⟩

/-- The external effects consumed by `run`: the endpoint reported by the
embedded `EtcdServer`, the fresh `uuid.uuid4()` string, and the outcome of
the external `elastic_launch` call (which either returns or raises). -/
structure RunEnv where
  embedded_endpoint : String
  fresh_uuid : String
  launch_result : Except PyError Unit
deriving DecidableEq, Repr

/-- What one call of `run` does: its returned/raised outcome, whether the
embedded etcd server was started and whether it was stopped, the argument
record after the standalone rewrite, and the `OMP_NUM_THREADS` write. -/
structure RunOutcome where
  result : Except PyError Unit
  server_started : Bool
  server_stopped : Bool
  final_args : Args
  omp_set : Option String
deriving DecidableEq, Repr

/-- `run` from `elastic_launch.py`: in standalone mode start the embedded
etcd server and overwrite `rdzv_backend`/`rdzv_endpoint`/`rdzv_id`, then
call `config_from_args`, then `elastic_launch` inside `try/finally` whose
`finally` stops the embedded server. An exception out of
`config_from_args` propagates before the `try` block is entered, so the
server is not stopped on that path. -/
def run (env : SysEnv) (renv : RunEnv) (args : Args) : RunOutcome :=
  let args1 :=
    if args.standalone then
      { args with
        rdzv_backend := "etcd"
        rdzv_endpoint := renv.embedded_endpoint
        rdzv_id := renv.fresh_uuid }
    else args
  let co := config_from_args env args1
  match co.result with
  | .error e => ⟨.error e, args.standalone, false, args1, co.omp_set⟩
  | .ok _ =>
    match renv.launch_result with
    | .ok _ => ⟨.ok (), args.standalone, args.standalone, args1, co.omp_set⟩
    | .error e => ⟨.error e, args.standalone, args.standalone, args1, co.omp_set⟩

/-- Modelled from the spec: RankAssigner (§4.3) is not part of the provided
source. Given the node's position `p` in the ordered node list and the
homogeneous local world size `L`, worker `i` receives global rank
`p*L + i`. -/
def assignGlobalRank (L p i : Nat) : Nat := p * L + i

/-- Modelled from the spec: RankAssigner gives the node at position `p`
group rank `p`. -/
def assignGroupRank (p : Nat) : Nat := p

/-- Modelled from the spec: RankAssigner gives local worker `i` local rank
`i`. -/
def assignLocalRank (i : Nat) : Nat := i

/-- Modelled from the spec: the multiset of global ranks RankAssigner hands
out across an ordered node list of `n` nodes with `L` workers each, node by
node in list order. -/
def allGlobalRanks (n L : Nat) : List Nat :=
  (List.range n).flatMap (fun p => (List.range L).map (fun i => assignGlobalRank L p i))

/-- Modelled from the spec: the outcome of one whole-group cycle observed
by the RestartController — either every worker exited cleanly or the cycle
ended in a worker failure / superseded rendezvous round. -/
inductive CycleOutcome where
  | success
  | failure
deriving DecidableEq, Repr

/-- Modelled from the spec: the RestartController phases relevant to
restart accounting (`NEGOTIATING`/`RUNNING` collapse into the live phase;
`SUCCEEDED` and `FAILED_FATAL` are terminal). -/
inductive CState where
  | negotiating
  | succeeded
  | fatal
deriving DecidableEq, Repr

/-- Modelled from the spec: the RestartController's live state, its phase
together with `restarts_used`. -/
structure RState where
  state : CState
  restarts_used : Nat
deriving DecidableEq, Repr

/-- Modelled from the spec: one transition of the RestartController state
machine (§4.5). A clean cycle reaches `SUCCEEDED`; a failing cycle tears
the group down, increments `restarts_used`, and goes `FAILED_FATAL` exactly
when the incremented counter exceeds `max_restarts`; terminal states
absorb. -/
def rcStep (max_restarts : Nat) (s : RState) (o : CycleOutcome) : RState :=
  match s.state with
  | .negotiating =>
    match o with
    | .success => ⟨.succeeded, s.restarts_used⟩
    | .failure =>
      if s.restarts_used + 1 > max_restarts then ⟨.fatal, s.restarts_used + 1⟩
      else ⟨.negotiating, s.restarts_used + 1⟩
  | _ => s

/-- Modelled from the spec: a whole run of the RestartController over a
sequence of cycle outcomes, starting with `restarts_used = 0`. -/
def rcRun (max_restarts : Nat) (outcomes : List CycleOutcome) : RState :=
  outcomes.foldl (rcStep max_restarts) ⟨.negotiating, 0⟩

/-- The local world size `config_from_args` resolves during a call, when it
gets that far: the bounds must parse, both assertions must pass, and
`determine_local_world_size` must succeed. -/
def resolved_nproc (env : SysEnv) (args : Args) : Option Int :=
  match parse_min_max_nnodes args.nnodes with
  | .error _ => none
  | .ok (min_nodes, max_nodes) =>
    if 0 < min_nodes ∧ min_nodes ≤ max_nodes then
      if 0 ≤ args.max_restarts then
        match determine_local_world_size env args.nproc_per_node with
        | .ok n => some n
        | .error _ => none
      else none
    else none

/-- The command list of a successful `config_from_args` call, if any. -/
def cmdOf (o : ConfigOutcome) : Option (List String) :=
  match o.result with
  | .ok (_, cmd) => some cmd
  | .error _ => none

/-- A concrete ambient state: eight CPUs, no CUDA, `OMP_NUM_THREADS`
unset. -/
def envA : SysEnv :=
  { cpu_count := 8
    cuda_available := false
    cuda_device_count := 0
    omp_num_threads_set := false
    executable := "python"
    local_rank_token := "LOCAL_RANK" }

/-- A concrete ambient state with CUDA available and two devices. -/
def envB : SysEnv :=
  { envA with cuda_available := true, cuda_device_count := 2 }

/-- A concrete well-formed argument record: elastic bounds `2:4`, four
workers per node, etcd backend. -/
def argsW : Args :=
  { nnodes := "2:4"
    nproc_per_node := "4"
    rdzv_backend := "etcd"
    rdzv_endpoint := "host:1234"
    rdzv_id := "jobid"
    rdzv_conf := ""
    standalone := false
    max_restarts := 3
    monitor_interval := 5
    start_method := "spawn"
    role := "default"
    module := false
    no_python := false
    use_env := true
    redirects := "0"
    tee := "0"
    node_rank := 0
    master_addr := "127.0.0.1"
    master_port := 29500
    training_script := "train.py"
    training_script_args := ["--x"] }

/-- The `LaunchConfig` that `config_from_args envA argsW` returns. -/
def cfgW : LaunchConfig := makeLaunchConfig argsW 2 4 4 []

/-- The command that `config_from_args envA argsW` returns. -/
def cmdW : List String := ["python", "-u", "train.py", "--x"]

/-- `argsW` with the static backend selected. -/
def argsStatic : Args := { argsW with rdzv_backend := "static" }

/-- The `LaunchConfig` that `config_from_args envA argsStatic` returns. -/
def cfgStatic : LaunchConfig :=
  makeLaunchConfig argsStatic 2 4 4 [("rank", .int 0)]

/-- `argsW` with a single node and a single worker per node. -/
def argsN1 : Args := { argsW with nnodes := "1", nproc_per_node := "1" }

/-- `argsN1` with `use_env` unset (the legacy `--local_rank` path). -/
def argsC6 : Args := { argsN1 with use_env := false, training_script_args := [] }

/-- `argsN1` with both `no_python` and `module` set. -/
def argsNoPyMod : Args := { argsN1 with no_python := true, module := true }

/-- `argsW` with a negative `max_restarts` (fails the second assertion). -/
def argsBadRestarts : Args := { argsW with nnodes := "1", max_restarts := -1 }

/-- Standalone-mode arguments whose `nnodes` has two colons, so
`config_from_args` raises after the embedded server has started. -/
def argsC2bad : Args := { argsW with standalone := true, nnodes := "1:2:3" }

/-- Well-formed standalone-mode arguments. -/
def argsC2good : Args := { argsN1 with standalone := true }

/-- Concrete external effects for `run`: the embedded server endpoint, the
fresh uuid, and an `elastic_launch` that returns normally. -/
def renvOk : RunEnv :=
  { embedded_endpoint := "127.0.0.1:2379"
    fresh_uuid := "uuid-1234"
    launch_result := .ok () }

/-- Concrete external effects for `run` whose `elastic_launch` raises. -/
def renvFail : RunEnv := { renvOk with launch_result := .error (.valueError "boom") }

theorem stringMk_data (s : String) : String.mk s.data = s := rfl

theorem splitChar_count_zero (sep : Char) (l : List Char) (h : l.count sep = 0) :
    splitChar sep l = [l] := by
  induction l with
  | nil => rfl
  | cons c cs ih =>
    rw [List.count_cons] at h
    have hc : c ≠ sep := by
      intro he
      simp [he] at h
    have hcs : cs.count sep = 0 := by omega
    rw [splitChar, ih hcs]
    simp [hc]

theorem splitChar_length (sep : Char) (l : List Char) :
    (splitChar sep l).length = l.count sep + 1 := by
  induction l with
  | nil => rfl
  | cons c cs ih =>
    rw [splitChar, List.count_cons]
    rcases hs : splitChar sep cs with _ | ⟨h, t⟩
    · rw [hs] at ih
      simp at ih
    · rw [hs] at ih
      by_cases hc : c = sep <;> simp [hc] at ih ⊢ <;> omega

theorem pySplit_no_sep (s : String) (sep : Char) (h : s.data.count sep = 0) :
    pySplit s sep = [s] := by
  rw [pySplit, splitChar_count_zero sep s.data h]
  simp [stringMk_data]

theorem pySplit_length (s : String) (sep : Char) :
    (pySplit s sep).length = s.data.count sep + 1 := by
  rw [pySplit, List.length_map, splitChar_length]

/-- C5: for every `nnodes` string: with no colon, `parse_min_max_nnodes`
returns `(n, n)` where `n` is the integer value of the string; with exactly
one colon it returns the integer values of the two fields; and with two or
more colons it raises `RuntimeError`. -/
theorem C5_parse_min_max_nnodes (s : String) :
    (s.data.count ':' = 0 → ∀ n, pyInt s = some n →
      parse_min_max_nnodes s = .ok (n, n)) ∧
    (∀ a b, pySplit s ':' = [a, b] → ∀ m n, pyInt a = some m → pyInt b = some n →
      parse_min_max_nnodes s = .ok (m, n)) ∧
    (2 ≤ s.data.count ':' →
      ∃ msg, parse_min_max_nnodes s = .error (.runtimeError msg)) := by
  refine ⟨?_, ?_, ?_⟩
  · intro h0 n hn
    rw [parse_min_max_nnodes, pySplit_no_sep s ':' h0]
    simp [hn]
  · intro a b hab m n hm hn
    rw [parse_min_max_nnodes, hab]
    simp [hm, hn]
  · intro h2
    have hlen : 3 ≤ (pySplit s ':').length := by
      rw [pySplit_length]
      omega
    rcases hsp : pySplit s ':' with _ | ⟨a, _ | ⟨b, _ | ⟨c, t⟩⟩⟩ <;>
      rw [hsp] at hlen <;> simp at hlen
    rw [parse_min_max_nnodes, hsp]
    exact ⟨_, rfl⟩

/-- Witness for C5 at `"3"`, `"1:4"` and `"1:2:3"`. -/
theorem C5_witness :
    parse_min_max_nnodes "3" = .ok (3, 3) ∧
    parse_min_max_nnodes "1:4" = .ok (1, 4) ∧
    (∃ msg, parse_min_max_nnodes "1:2:3" = .error (.runtimeError msg)) :=
  ⟨(C5_parse_min_max_nnodes "3").1 (by decide) 3 (by decide),
   (C5_parse_min_max_nnodes "1:4").2.1 "1" "4" (by decide) 1 4 (by decide) (by decide),
   (C5_parse_min_max_nnodes "1:2:3").2.2 (by decide)⟩

/-- C1: `determine_local_world_size` returns the integer value of the
string when it parses as one; returns the CPU count for `"cpu"`; returns
the CUDA device count for `"gpu"` and raises `ValueError` when CUDA is
unavailable; for `"auto"` returns the CUDA device count when CUDA is
available and the CPU count otherwise; and raises `ValueError` on every
other string. -/
theorem C1_determine_local_world_size (env : SysEnv) (s : String) :
    (∀ n, pyInt s = some n → determine_local_world_size env s = .ok n) ∧
    (s = "cpu" → determine_local_world_size env s = .ok (env.cpu_count : Int)) ∧
    (s = "gpu" →
      (env.cuda_available = true →
        determine_local_world_size env s = .ok (env.cuda_device_count : Int)) ∧
      (env.cuda_available = false →
        determine_local_world_size env s = .error (.valueError "Cuda is not available."))) ∧
    (s = "auto" →
      (env.cuda_available = true →
        determine_local_world_size env s = .ok (env.cuda_device_count : Int)) ∧
      (env.cuda_available = false →
        determine_local_world_size env s = .ok (env.cpu_count : Int))) ∧
    (pyInt s = none → s ≠ "cpu" → s ≠ "gpu" → s ≠ "auto" →
      determine_local_world_size env s =
        .error (.valueError "Unsupported nproc_per_node value")) := by
  refine ⟨?_, ?_, ?_, ?_, ?_⟩
  · intro n hn
    rw [determine_local_world_size, hn]
  · intro hs
    subst hs
    rw [determine_local_world_size]
    have : pyInt "cpu" = none := by decide
    rw [this]
    simp
  · intro hs
    subst hs
    have : pyInt "gpu" = none := by decide
    constructor <;> intro hcuda <;> rw [determine_local_world_size, this] <;> simp [hcuda]
  · intro hs
    subst hs
    have : pyInt "auto" = none := by decide
    constructor <;> intro hcuda <;> rw [determine_local_world_size, this] <;> simp [hcuda]
  · intro hn h1 h2 h3
    rw [determine_local_world_size, hn]
    simp [h1, h2, h3]

/-- Witness for C1 at an integer, `"cpu"`, `"gpu"` with and without CUDA,
`"auto"` with and without CUDA, and an unsupported string. -/
theorem C1_witness :
    determine_local_world_size envA "4" = .ok 4 ∧
    determine_local_world_size envA "cpu" = .ok 8 ∧
    determine_local_world_size envB "gpu" = .ok 2 ∧
    determine_local_world_size envA "gpu" = .error (.valueError "Cuda is not available.") ∧
    determine_local_world_size envB "auto" = .ok 2 ∧
    determine_local_world_size envA "auto" = .ok 8 ∧
    determine_local_world_size envA "bogus" =
      .error (.valueError "Unsupported nproc_per_node value") :=
  ⟨(C1_determine_local_world_size envA "4").1 4 (by decide),
   (C1_determine_local_world_size envA "cpu").2.1 rfl,
   ((C1_determine_local_world_size envB "gpu").2.2.1 rfl).1 rfl,
   ((C1_determine_local_world_size envA "gpu").2.2.1 rfl).2 rfl,
   ((C1_determine_local_world_size envB "auto").2.2.2.1 rfl).1 rfl,
   ((C1_determine_local_world_size envA "auto").2.2.2.1 rfl).2 rfl,
   (C1_determine_local_world_size envA "bogus").2.2.2.2 (by decide)
     (by decide) (by decide) (by decide)⟩

theorem determine_error_is_value (env : SysEnv) (s : String) (e : PyError)
    (h : determine_local_world_size env s = .error e) : ∃ m, e = .valueError m := by
  rw [determine_local_world_size] at h
  rcases hp : pyInt s with _ | n <;> rw [hp] at h
  · by_cases h1 : s = "cpu" <;> by_cases h2 : s = "gpu" <;> by_cases h3 : s = "auto" <;>
      rcases hcuda : env.cuda_available <;>
      simp [h1, h2, h3, hcuda] at h <;> exact ⟨_, h.symm⟩
  · simp at h

theorem prc_items_error_is_value (items : List String) (acc : List (String × PyVal))
    (e : PyError) (h : parse_rendezvous_config_items items acc = .error e) :
    ∃ m, e = .valueError m := by
  induction items generalizing acc with
  | nil => simp [parse_rendezvous_config_items] at h
  | cons item rest ih =>
    rw [parse_rendezvous_config_items] at h
    rcases hsp : pySplit item '=' with _ | ⟨k, _ | ⟨v, _ | _⟩⟩ <;> rw [hsp] at h
    · simp at h
      exact ⟨_, h.symm⟩
    · simp at h
      exact ⟨_, h.symm⟩
    · by_cases hk : k = ""
      · simp [hk] at h
        exact ⟨_, h.symm⟩
      · simp [hk] at h
        exact ih _ h
    · simp at h
      exact ⟨_, h.symm⟩

theorem prc_error_is_value (conf : String) (e : PyError)
    (h : parse_rendezvous_config conf = .error e) : ∃ m, e = .valueError m := by
  rw [parse_rendezvous_config] at h
  by_cases hc : conf = ""
  · simp [hc] at h
  · simp only [hc, if_false] at h
    exact prc_items_error_is_value _ _ _ h

theorem build_cmd_error_is_value (env : SysEnv) (args : Args) (e : PyError)
    (h : build_cmd env args = .error e) : ∃ m, e = .valueError m := by
  rw [build_cmd] at h
  rcases hnp : args.no_python <;> rcases hue : args.use_env <;> rcases hm : args.module <;>
    simp [hnp, hue, hm] at h <;> exact ⟨_, h.symm⟩

theorem build_cmd_error_iff (env : SysEnv) (args : Args) :
    (∃ e, build_cmd env args = .error e) ↔
      (args.no_python = true ∧ (args.use_env = false ∨ args.module = true)) := by
  rw [build_cmd]
  rcases hnp : args.no_python <;> rcases hue : args.use_env <;> rcases hm : args.module <;>
    simp

/-- Inversion of a successful `config_from_args` call: every stage of the
pipeline succeeded and the returned config is the `LaunchConfig` built from
the resolved values. -/
theorem config_ok_inv (env : SysEnv) (args : Args) (cfg : LaunchConfig)
    (cmd : List String)
    (h : (config_from_args env args).result = .ok (cfg, cmd)) :
    ∃ mn mx n c, parse_min_max_nnodes args.nnodes = .ok (mn, mx) ∧
      (0 < mn ∧ mn ≤ mx) ∧ 0 ≤ args.max_restarts ∧
      determine_local_world_size env args.nproc_per_node = .ok n ∧
      parse_rendezvous_config args.rdzv_conf = .ok c ∧
      build_cmd env args = .ok cmd ∧
      cfg = makeLaunchConfig args mn mx n
        (if args.rdzv_backend = "static" then insertKV c "rank" (.int args.node_rank)
         else c) := by
  simp only [config_from_args] at h
  split at h
  · simp at h
  · rename_i mn mx heq
    split at h
    · rename_i hb
      split at h
      · rename_i hr
        split at h
        · simp at h
        · rename_i n hd
          split at h
          · simp at h
          · rename_i c hc
            split at h
            · simp at h
            · rename_i cmd1 hcmd
              simp only [ConfigOutcome.result, Except.ok.injEq, Prod.mk.injEq] at h
              exact ⟨mn, mx, n, c, heq, hb, hr, hd, hc, by rw [hcmd, h.2], h.1.symm⟩
      · simp at h
    · simp at h

/-- C3: when the bounds parsed from `args.nnodes` violate
`0 < min_nodes ≤ max_nodes` or `max_restarts < 0`, `config_from_args`
raises `AssertionError` before resolving the worker count (its outcome is
independent of the ambient state and leaves `OMP_NUM_THREADS` alone); under
the preconditions the assertion branch is unreachable. -/
theorem C3_bounds_assertion (env env2 : SysEnv) (args : Args) (mn mx : Int)
    (hp : parse_min_max_nnodes args.nnodes = .ok (mn, mx)) :
    (¬ (0 < mn ∧ mn ≤ mx ∧ 0 ≤ args.max_restarts) →
      (config_from_args env args).result = .error .assertionError ∧
      (config_from_args env args).omp_set = none ∧
      config_from_args env args = config_from_args env2 args) ∧
    ((0 < mn ∧ mn ≤ mx ∧ 0 ≤ args.max_restarts) →
      (config_from_args env args).result ≠ .error .assertionError) := by
  constructor
  · intro hneg
    have hres : ∀ env0 : SysEnv,
        config_from_args env0 args = ⟨.error .assertionError, none⟩ := by
      intro env0
      simp only [config_from_args, hp]
      by_cases hb : 0 < mn ∧ mn ≤ mx
      · have hr : ¬ 0 ≤ args.max_restarts := fun hr => hneg ⟨hb.1, hb.2, hr⟩
        simp [hb, hr]
      · simp [hb]
    rw [hres env, hres env2]
    exact ⟨rfl, rfl, rfl⟩
  · rintro ⟨h1, h2, hr⟩ habs
    simp only [config_from_args, hp] at habs
    rw [if_pos (show 0 < mn ∧ mn ≤ mx from ⟨h1, h2⟩), if_pos hr] at habs
    split at habs
    · rename_i e hd
      obtain ⟨m, hm⟩ := determine_error_is_value env args.nproc_per_node e hd
      rw [hm] at habs
      simp at habs
    · rename_i n hd
      split at habs
      · rename_i e hc
        obtain ⟨m, hm⟩ := prc_error_is_value args.rdzv_conf e hc
        rw [hm] at habs
        simp at habs
      · rename_i c hc
        split at habs
        · rename_i e hcmd
          obtain ⟨m, hm⟩ := build_cmd_error_is_value env args e hcmd
          rw [hm] at habs
          simp at habs
        · simp at habs

/-- Witness for C3: negative `max_restarts` hits the assertion; valid
bounds never do. -/
theorem C3_witness :
    (config_from_args envA argsBadRestarts).result = .error .assertionError ∧
    (config_from_args envA argsW).result ≠ .error .assertionError :=
  ⟨((C3_bounds_assertion envA envB argsBadRestarts 1 1 (by decide)).1 (by decide)).1,
   (C3_bounds_assertion envA envA argsW 2 4 (by decide)).2 (by decide)⟩

/-- C4: a successful `config_from_args` returns exactly the resolved
configuration: node bounds parsed from `args.nnodes`, the resolved integer
worker count, `run_id = args.rdzv_id`, `role`, `max_restarts`,
`monitor_interval` and `start_method` copied from `args`, and an
`rdzv_endpoint` equal to `master_addr:master_port` for the static backend
and to `args.rdzv_endpoint` for every other backend. -/
theorem C4_launchconfig_fields (env : SysEnv) (args : Args) (cfg : LaunchConfig)
    (cmd : List String)
    (h : (config_from_args env args).result = .ok (cfg, cmd)) :
    parse_min_max_nnodes args.nnodes = .ok (cfg.min_nodes, cfg.max_nodes) ∧
    determine_local_world_size env args.nproc_per_node = .ok cfg.nproc_per_node ∧
    cfg.run_id = args.rdzv_id ∧
    cfg.role = args.role ∧
    cfg.max_restarts = args.max_restarts ∧
    cfg.monitor_interval = args.monitor_interval ∧
    cfg.start_method = args.start_method ∧
    cfg.rdzv_backend = args.rdzv_backend ∧
    (args.rdzv_backend = "static" →
      cfg.rdzv_endpoint = args.master_addr ++ ":" ++ toString args.master_port) ∧
    (args.rdzv_backend ≠ "static" → cfg.rdzv_endpoint = args.rdzv_endpoint) := by
  obtain ⟨mn, mx, n, c, hp, hb, hr, hd, hc, hcmd, hcfg⟩ := config_ok_inv env args cfg cmd h
  subst hcfg
  refine ⟨hp, hd, rfl, rfl, rfl, rfl, rfl, rfl, ?_, ?_⟩ <;>
    intro hs <;> simp [makeLaunchConfig, get_rdzv_endpoint, hs]

/-- Witness for C4 at `envA`/`argsW` (an etcd-backend configuration). -/
theorem C4_witness :
    parse_min_max_nnodes argsW.nnodes = .ok (cfgW.min_nodes, cfgW.max_nodes) ∧
    determine_local_world_size envA argsW.nproc_per_node = .ok cfgW.nproc_per_node ∧
    cfgW.run_id = argsW.rdzv_id ∧
    cfgW.monitor_interval = argsW.monitor_interval ∧
    cfgW.rdzv_endpoint = argsW.rdzv_endpoint :=
  ⟨(C4_launchconfig_fields envA argsW cfgW cmdW rfl).1,
   (C4_launchconfig_fields envA argsW cfgW cmdW rfl).2.1,
   (C4_launchconfig_fields envA argsW cfgW cmdW rfl).2.2.1,
   (C4_launchconfig_fields envA argsW cfgW cmdW rfl).2.2.2.2.2.1,
   (C4_launchconfig_fields envA argsW cfgW cmdW rfl).2.2.2.2.2.2.2.2.2 (by decide)⟩

theorem omp_set_eq (env : SysEnv) (args : Args) :
    (config_from_args env args).omp_set =
      match resolved_nproc env args with
      | some n => if env.omp_num_threads_set = false ∧ 1 < n then some "1" else none
      | none => none := by
  simp only [config_from_args, resolved_nproc]
  split
  · rfl
  · rename_i mn mx heq
    by_cases hb : 0 < mn ∧ mn ≤ mx
    · by_cases hr : 0 ≤ args.max_restarts
      · simp only [hb, hr, and_self, if_true]
        split
        · rename_i e hd
          rw [hd]
        · rename_i n hd
          rw [hd]
          split
          · rfl
          · split <;> rfl
      · simp [hb, hr]
    · simp [hb]

/-- C9: `config_from_args` writes `OMP_NUM_THREADS = "1"` exactly when the
variable is absent and the worker count it resolves during the call is
greater than one; in every other case it leaves the process environment
unchanged. -/
theorem C9_omp_num_threads (env : SysEnv) (args : Args) :
    ((env.omp_num_threads_set = false ∧
        ∃ n, resolved_nproc env args = some n ∧ 1 < n) →
      (config_from_args env args).omp_set = some "1") ∧
    (¬ (env.omp_num_threads_set = false ∧
        ∃ n, resolved_nproc env args = some n ∧ 1 < n) →
      (config_from_args env args).omp_set = none) := by
  rw [omp_set_eq]
  constructor
  · rintro ⟨homp, n, hn, h1⟩
    rw [hn]
    simp [homp, h1]
  · intro hneg
    rcases hn : resolved_nproc env args with _ | n
    · rfl
    · simp only []
      rw [if_neg]
      rintro ⟨homp, h1⟩
      exact hneg ⟨homp, n, hn, h1⟩

/-- Witness for C9: `argsW` resolves four workers with `OMP_NUM_THREADS`
absent (the variable is written), `argsN1` resolves a single worker (the
environment is untouched). -/
theorem C9_witness :
    (config_from_args envA argsW).omp_set = some "1" ∧
    (config_from_args envA argsN1).omp_set = none :=
  ⟨(C9_omp_num_threads envA argsW).1 ⟨rfl, 4, by decide, by decide⟩,
   (C9_omp_num_threads envA argsN1).2 (by
      rintro ⟨-, n, hn, h1⟩
      have hn1 : some (1 : Int) = some n := by
        rw [show resolved_nproc envA argsN1 = some 1 from by decide] at hn
        exact hn
      have h2 := Option.some.inj hn1
      omega)⟩

theorem mem_insertKV_self (l : List (String × PyVal)) (k : String) (v : PyVal) :
    (k, v) ∈ insertKV l k v := by
  rw [insertKV]
  by_cases hany : l.any (fun p => p.1 = k)
  · rw [if_pos hany]
    obtain ⟨p, hp, hpk⟩ := List.any_eq_true.mp hany
    have hpk2 : p.1 = k := of_decide_eq_true hpk
    exact List.mem_map.mpr ⟨p, hp, by simp [hpk2]⟩
  · rw [if_neg hany]
    exact List.mem_append_right _ (List.mem_singleton.mpr rfl)

theorem insertKV_str_values (l : List (String × PyVal)) (k : String) (s : String)
    (hl : ∀ kv ∈ l, ∃ t, kv.2 = PyVal.str t) :
    ∀ kv ∈ insertKV l k (.str s), ∃ t, kv.2 = PyVal.str t := by
  intro kv hkv
  rw [insertKV] at hkv
  by_cases hany : l.any (fun p => p.1 = k)
  · rw [if_pos hany] at hkv
    obtain ⟨p, hp, hpe⟩ := List.mem_map.mp hkv
    by_cases hpk : p.1 = k
    · rw [if_pos hpk] at hpe
      exact ⟨s, by rw [← hpe]⟩
    · rw [if_neg hpk] at hpe
      exact hl p hp |>.imp (fun t ht => by rw [← hpe]; exact ht)
  · rw [if_neg hany] at hkv
    rcases List.mem_append.mp hkv with h | h
    · exact hl kv h
    · rw [List.mem_singleton.mp h]
      exact ⟨s, rfl⟩

theorem prc_items_str_values (items : List String) (acc l : List (String × PyVal))
    (hacc : ∀ kv ∈ acc, ∃ t, kv.2 = PyVal.str t)
    (h : parse_rendezvous_config_items items acc = .ok l) :
    ∀ kv ∈ l, ∃ t, kv.2 = PyVal.str t := by
  induction items generalizing acc with
  | nil =>
    rw [parse_rendezvous_config_items] at h
    rw [← Except.ok.inj h]
    exact hacc
  | cons item rest ih =>
    rw [parse_rendezvous_config_items] at h
    rcases hsp : pySplit item '=' with _ | ⟨k, _ | ⟨v, _ | _⟩⟩ <;> rw [hsp] at h
    · simp at h
    · simp at h
    · by_cases hk : k = ""
      · simp [hk] at h
      · simp only [hk, if_false] at h
        exact ih _ (insertKV_str_values acc k v hacc) h
    · simp at h

theorem prc_str_values (conf : String) (l : List (String × PyVal))
    (h : parse_rendezvous_config conf = .ok l) :
    ∀ kv ∈ l, ∃ t, kv.2 = PyVal.str t := by
  rw [parse_rendezvous_config] at h
  by_cases hc : conf = ""
  · rw [if_pos hc] at h
    rw [← Except.ok.inj h]
    intro kv hkv
    simp at hkv
  · rw [if_neg hc] at h
    exact prc_items_str_values _ _ _ (by intro kv hkv; simp at hkv) h

/-- C10: the `rdzv_configs` of a successful `config_from_args` contains
the binding `"rank" ↦ args.node_rank` (a Python `int`) exactly when the
backend is `"static"`; for every other backend it is exactly the dict
parsed from `args.rdzv_conf` (whose values are all strings). -/
theorem C10_rdzv_configs (env : SysEnv) (args : Args) (cfg : LaunchConfig)
    (cmd : List String)
    (h : (config_from_args env args).result = .ok (cfg, cmd)) :
    (("rank", PyVal.int args.node_rank) ∈ cfg.rdzv_configs ↔
      args.rdzv_backend = "static") ∧
    (args.rdzv_backend ≠ "static" →
      parse_rendezvous_config args.rdzv_conf = .ok cfg.rdzv_configs) := by
  obtain ⟨mn, mx, n, c, hp, hb, hr, hd, hc, hcmd, hcfg⟩ := config_ok_inv env args cfg cmd h
  subst hcfg
  constructor
  · constructor
    · intro hmem
      by_contra hs
      simp only [makeLaunchConfig, hs, if_false] at hmem
      obtain ⟨t, ht⟩ := prc_str_values args.rdzv_conf c hc _ hmem
      exact PyVal.noConfusion ht
    · intro hs
      simp only [makeLaunchConfig, hs, if_true]
      exact mem_insertKV_self c "rank" (.int args.node_rank)
  · intro hs
    simp only [makeLaunchConfig, hs, if_false]
    exact hc

/-- Witness for C10: with the static backend the returned configs contain
`rank ↦ 0`; with the etcd backend they are exactly the parsed (empty)
`rdzv_conf`. -/
theorem C10_witness :
    ("rank", PyVal.int argsStatic.node_rank) ∈ cfgStatic.rdzv_configs ∧
    parse_rendezvous_config argsW.rdzv_conf = .ok cfgW.rdzv_configs :=
  ⟨(C10_rdzv_configs envA argsStatic cfgStatic cmdW rfl).1.mpr rfl,
   (C10_rdzv_configs envA argsW cfgW cmdW rfl).2 (by decide)⟩

/-- C6 counterexample: with `no_python` unset, `module` unset and
`use_env` unset, `config_from_args` succeeds and the returned command ends
with the legacy `--local_rank={macros.local_rank}` argument after the
training script, so with empty `training_script_args` it does not end with
the training script as the claim states. -/
theorem C6_counterexample :
    argsC6.no_python = false ∧ argsC6.module = false ∧
    argsC6.training_script = "train.py" ∧ argsC6.training_script_args = [] ∧
    cmdOf (config_from_args envA argsC6) =
      some ["python", "-u", "train.py", "--local_rank=LOCAL_RANK"] ∧
    ["python", "-u", "train.py", "--local_rank=LOCAL_RANK"].getLast? ≠
      some "train.py" := by
  decide

/-- C6 (amended): given that the node bounds, assertions, worker-count
resolution and rendezvous-config parsing all pass, `config_from_args`
raises `ValueError` exactly when `no_python` is set together with `use_env`
unset or with `module` set; otherwise the returned command starts with
`[sys.executable, "-u"]` (plus `"-m"` when `module` is set) when
`no_python` is unset and directly with the training script when it is set,
and ends with the training script, then — only when `use_env` is unset —
the `--local_rank={macros.local_rank}` argument, then
`training_script_args`. -/
theorem C6_command_line (env : SysEnv) (args : Args) (mn mx n : Int)
    (hp : parse_min_max_nnodes args.nnodes = .ok (mn, mx))
    (hb : 0 < mn ∧ mn ≤ mx) (hr : 0 ≤ args.max_restarts)
    (hd : determine_local_world_size env args.nproc_per_node = .ok n)
    (hpc : ∃ c, parse_rendezvous_config args.rdzv_conf = .ok c) :
    ((∃ msg, (config_from_args env args).result = .error (.valueError msg)) ↔
      (args.no_python = true ∧ (args.use_env = false ∨ args.module = true))) ∧
    (∀ cfg cmd, (config_from_args env args).result = .ok (cfg, cmd) →
      (args.no_python = false →
        cmd = ([env.executable, "-u"] ++ (if args.module then ["-m"] else []))
          ++ [args.training_script]
          ++ (if args.use_env then [] else ["--local_rank=" ++ env.local_rank_token])
          ++ args.training_script_args) ∧
      (args.no_python = true →
        cmd = args.training_script :: args.training_script_args)) := by
  obtain ⟨c, hc⟩ := hpc
  rcases hbc : build_cmd env args with e | cmd0
  · obtain ⟨m, hm⟩ := build_cmd_error_is_value env args e hbc
    subst hm
    have hres : (config_from_args env args).result = .error (.valueError m) := by
      simp only [config_from_args, hp]
      rw [if_pos hb, if_pos hr]
      simp only [hd, hc, hbc]
    have hcond := (build_cmd_error_iff env args).mp ⟨_, hbc⟩
    refine ⟨⟨fun _ => hcond, fun _ => ⟨m, hres⟩⟩, ?_⟩
    intro cfg cmd hok
    rw [hres] at hok
    exact Except.noConfusion hok
  · have hres : (config_from_args env args).result =
        .ok (makeLaunchConfig args mn mx n
          (if args.rdzv_backend = "static" then insertKV c "rank" (.int args.node_rank)
           else c), cmd0) := by
      simp only [config_from_args, hp]
      rw [if_pos hb, if_pos hr]
      simp only [hd, hc, hbc]
    have hnoerr : ¬ (args.no_python = true ∧ (args.use_env = false ∨ args.module = true)) := by
      intro hcond
      obtain ⟨e, he⟩ := (build_cmd_error_iff env args).mpr hcond
      rw [hbc] at he
      exact Except.noConfusion he
    constructor
    · constructor
      · rintro ⟨msg, hmsg⟩
        rw [hres] at hmsg
        exact Except.noConfusion hmsg
      · intro hcond
        exact absurd hcond hnoerr
    · intro cfg cmd hok
      rw [hres] at hok
      have hcmd : cmd0 = cmd := congrArg Prod.snd (Except.ok.inj hok)
      subst hcmd
      constructor
      · intro hnp
        rw [build_cmd] at hbc
        simp only [hnp, if_true] at hbc
        exact (Except.ok.inj hbc).symm
      · intro hnp
        rw [build_cmd] at hbc
        simp only [hnp] at hbc
        rcases hue : args.use_env with _ | _
        · exact absurd ⟨hnp, Or.inl hue⟩ hnoerr
        · rcases hm2 : args.module with _ | _
          · simp only [hue, hm2] at hbc
            simp at hbc
            exact hbc.symm
          · exact absurd ⟨hnp, Or.inr hm2⟩ hnoerr

/-- Witness for C6: the `--no_python --module` combination raises
`ValueError`; the legacy `use_env`-unset path does not (both directions of
the amended iff, each at a concrete input). -/
theorem C6_witness :
    ((∃ msg, (config_from_args envA argsC6).result = .error (.valueError msg)) ↔
      (argsC6.no_python = true ∧ (argsC6.use_env = false ∨ argsC6.module = true))) ∧
    (∃ msg, (config_from_args envA argsNoPyMod).result = .error (.valueError msg)) :=
  ⟨(C6_command_line envA argsC6 1 1 1 (by decide) (by decide) (by decide)
      (by decide) ⟨[], by decide⟩).1,
   (C6_command_line envA argsNoPyMod 1 1 1 (by decide) (by decide) (by decide)
      (by decide) ⟨[], by decide⟩).1.mpr (by decide)⟩

/-- C2 counterexample: in standalone mode with a malformed `nnodes`
(`"1:2:3"`), `config_from_args` raises after the embedded etcd server has
started and before the `try/finally` that stops it is entered, so `run`
exits with the server started but never stopped. -/
theorem C2_counterexample :
    (run envA renvOk argsC2bad).server_started = true ∧
    (run envA renvOk argsC2bad).server_stopped = false ∧
    (run envA renvOk argsC2bad).result =
      .error (.runtimeError "nnodes is not in MIN:MAX format") := by
  decide

/-- C2 (amended): in standalone mode `run` starts the embedded etcd server
and overwrites `rdzv_backend` with `"etcd"`, `rdzv_endpoint` with the
embedded endpoint and `rdzv_id` with the fresh uuid, ignoring the supplied
values; the server is stopped on every exit path that enters the
`try/finally` around `elastic_launch` (both normal return and raise),
which is every path on which `config_from_args` succeeds. -/
theorem C2_standalone_lifecycle (env : SysEnv) (renv : RunEnv) (args : Args)
    (h : args.standalone = true) :
    (run env renv args).final_args.rdzv_backend = "etcd" ∧
    (run env renv args).final_args.rdzv_endpoint = renv.embedded_endpoint ∧
    (run env renv args).final_args.rdzv_id = renv.fresh_uuid ∧
    (run env renv args).server_started = true ∧
    ((config_from_args env (run env renv args).final_args).result.isOk = true →
      (run env renv args).server_stopped = true) := by
  simp only [run, h, if_true]
  split
  · rename_i e hres
    refine ⟨rfl, rfl, rfl, rfl, ?_⟩
    intro hok
    rw [hres] at hok
    exact Bool.noConfusion hok
  · rename_i val hres
    split
    · exact ⟨rfl, rfl, rfl, rfl, fun _ => rfl⟩
    · exact ⟨rfl, rfl, rfl, rfl, fun _ => rfl⟩

/-- Witness for C2: a standalone run whose `elastic_launch` raises still
overwrites the three rendezvous arguments and stops the embedded server. -/
theorem C2_witness :
    (run envA renvFail argsC2good).final_args.rdzv_backend = "etcd" ∧
    (run envA renvFail argsC2good).final_args.rdzv_endpoint = "127.0.0.1:2379" ∧
    (run envA renvFail argsC2good).final_args.rdzv_id = "uuid-1234" ∧
    (run envA renvFail argsC2good).server_started = true ∧
    (run envA renvFail argsC2good).server_stopped = true ∧
    (run envA renvFail argsC2good).result = .error (.valueError "boom") := by
  have h := C2_standalone_lifecycle envA renvFail argsC2good rfl
  exact ⟨h.1, h.2.1, h.2.2.1, h.2.2.2.1, h.2.2.2.2 (by decide), by decide⟩

theorem allGlobalRanks_eq (n L : Nat) : allGlobalRanks n L = List.range (n * L) := by
  induction n with
  | zero => simp [allGlobalRanks]
  | succ k ih =>
    rw [allGlobalRanks, List.range_succ, List.flatMap_append]
    rw [allGlobalRanks] at ih
    rw [ih, Nat.succ_mul, List.range_add (k * L) L]
    congr 1
    simp [assignGlobalRank]

/-- C7: for `n` joined nodes with homogeneous local world size `L`, the
node at position `p` has group rank `p`, its worker `i` has global rank
`p*L + i` and local rank `i`, and across all nodes the global ranks are
exactly the duplicate-free contiguous sequence `[0, n*L)`. -/
theorem C7_rank_assignment (n L : Nat) :
    allGlobalRanks n L = List.range (n * L) ∧
    (allGlobalRanks n L).Nodup ∧
    (∀ r, r ∈ allGlobalRanks n L ↔ r < n * L) ∧
    (∀ p i, assignGroupRank p = p ∧ assignLocalRank i = i ∧
      assignGlobalRank L p i = p * L + i) :=
  ⟨allGlobalRanks_eq n L,
   by rw [allGlobalRanks_eq]; exact List.nodup_range (n * L),
   fun r => by rw [allGlobalRanks_eq]; exact List.mem_range,
   fun p i => ⟨rfl, rfl, rfl⟩⟩

theorem rc_foldl_failures (k r m : Nat) (h : r + m ≤ k) :
    List.foldl (rcStep k) ⟨.negotiating, r⟩ (List.replicate m .failure) =
      ⟨.negotiating, r + m⟩ := by
  induction m generalizing r with
  | zero => simp
  | succ j ih =>
    rw [List.replicate_succ, List.foldl_cons]
    have hstep : rcStep k ⟨.negotiating, r⟩ .failure = ⟨.negotiating, r + 1⟩ := by
      simp only [rcStep]
      rw [if_neg (by omega)]
    rw [hstep, ih (r + 1) (by omega)]
    congr 1
    omega

/-- C8: `restarts_used` starts at 0, increases by exactly 1 per failing
cycle, the controller reaches `FAILED_FATAL` exactly when the incremented
counter first exceeds `max_restarts`, and with `max_restarts = k`, `k`
failing cycles followed by a clean run still reach `SUCCEEDED` while `k+1`
failing cycles reach `FAILED_FATAL`. -/
theorem C8_restart_accounting (k : Nat) :
    rcRun k [] = ⟨.negotiating, 0⟩ ∧
    (∀ r, (rcStep k ⟨.negotiating, r⟩ .failure).restarts_used = r + 1) ∧
    (∀ r, ((rcStep k ⟨.negotiating, r⟩ .failure).state = .fatal ↔ k < r + 1)) ∧
    rcRun k (List.replicate k .failure ++ [.success]) = ⟨.succeeded, k⟩ ∧
    rcRun k (List.replicate (k + 1) .failure) = ⟨.fatal, k + 1⟩ := by
  refine ⟨rfl, ?_, ?_, ?_, ?_⟩
  · intro r
    simp only [rcStep]
    split <;> rfl
  · intro r
    simp only [rcStep]
    constructor
    · intro hf
      by_contra hk
      rw [if_neg (by omega)] at hf
      exact CState.noConfusion hf
    · intro hk
      rw [if_pos (by omega)]
  · rw [rcRun, List.foldl_append, rc_foldl_failures k 0 k (by omega)]
    simp only [Nat.zero_add, List.foldl_cons, List.foldl_nil]
    rfl
  · rw [rcRun, List.replicate_succ', List.foldl_append,
      rc_foldl_failures k 0 k (by omega)]
    simp only [Nat.zero_add, List.foldl_cons, List.foldl_nil]
    simp only [rcStep]
    rw [if_pos (by omega)]

end ElasticLaunch
